import Mathlib

/-!
Verification of the metrics aggregation and caching core of an admin
dashboard (TypeScript/Next.js).  The definitions below are a shallow
embedding of the source files:

  src/lib/api/time.ts       (time range resolver)
  src/lib/api/cache.ts      (cache keys and TTL cache helpers)
  src/lib/api/config.ts     (service name canonicalizer and aggregation)
  src/app/api/metrics/route.ts    (metrics endpoint orchestration)
  src/app/api/database/route.ts   (database metrics endpoint orchestration)
  src/app/api/deployments/route.ts (CLI deployments route module cache)

JavaScript numbers are modelled as exact rationals; the numeric values in
all theorems below are integers or short decimals, on which IEEE doubles
are exact.  JavaScript strings are modelled by Lean strings; operations
(toLowerCase, trim, includes) are redefined on the character list so that
they are kernel-computable.
-/

/-- ASCII lower-casing of one character, as String.prototype.toLowerCase acts
on the ASCII service names appearing in this code base. -/
def asciiLowerChar (c : Char) : Char :=
  if 65 ≤ c.toNat ∧ c.toNat ≤ 90 then Char.ofNat (c.toNat + 32) else c

/-- Model of JavaScript String.prototype.toLowerCase (ASCII range). -/
def strLower (s : String) : String := ⟨s.data.map asciiLowerChar⟩

/-- Model of JavaScript String.prototype.trim. -/
def strTrim (s : String) : String :=
  ⟨((s.data.dropWhile Char.isWhitespace).reverse.dropWhile Char.isWhitespace).reverse⟩

/-- Whether the character list starts with the given pattern. -/
def seqStartsWith : List Char → List Char → Bool
  | [], _ => true
  | _ :: _, [] => false
  | a :: as, b :: bs => a == b && seqStartsWith as bs

/-- Model of JavaScript String.prototype.includes (substring test). -/
def strIncludes (s pat : String) : Bool :=
  s.data.tails.any (fun t => seqStartsWith pat.data t)

/-- Value of a list of decimal digit characters, most significant first. -/
def charsToNat (cs : List Char) : ℕ :=
  cs.foldl (fun a c => 10 * a + (c.toNat - 48)) 0

/-- Model of JavaScript parseInt on base 10: skip leading whitespace, optional
sign, then the longest decimal digit prefix; none when no digit is found
(parseInt returns NaN there).  Exact for values below 2^53. -/
def jsParseInt (s : String) : Option ℤ :=
  let cs := s.data.dropWhile Char.isWhitespace
  let signRest : ℤ × List Char :=
    match cs with
    | '-' :: r => (-1, r)
    | '+' :: r => (1, r)
    | r => (1, r)
  let ds := signRest.2.takeWhile Char.isDigit
  if ds.isEmpty then none else some (signRest.1 * (charsToNat ds : ℤ))

/-- The idiom parseInt(x) or 0 used throughout the routes: NaN (and the
integer 0 itself) collapse to 0. -/
def jsParseIntD (s : String) : ℤ := (jsParseInt s).getD 0

/-- Model of JavaScript parseFloat restricted to plain decimal literals
(optional sign, digits, optional fraction), the only shape PostgreSQL
emits for the numeric columns parsed by the routes; none models NaN. -/
def jsParseFloat (s : String) : Option ℚ :=
  let cs := s.data.dropWhile Char.isWhitespace
  let signRest : ℚ × List Char :=
    match cs with
    | '-' :: r => (-1, r)
    | '+' :: r => (1, r)
    | r => (1, r)
  let ds := signRest.2.takeWhile Char.isDigit
  let rest := signRest.2.drop ds.length
  let fs :=
    match rest with
    | '.' :: r => r.takeWhile Char.isDigit
    | _ => []
  if ds.isEmpty ∧ fs.isEmpty then none
  else
    some (signRest.1 * ((charsToNat ds : ℚ) +
      (charsToNat fs : ℚ) / (10 : ℚ) ^ fs.length))

/-- The idiom parseFloat(x) or 0. -/
def jsParseFloatD (s : String) : ℚ := (jsParseFloat s).getD 0

/-- Model of JavaScript Math.round: round half up, as Mathlib round. -/
def jsRound (q : ℚ) : ℤ := round q

/-- The idiom (x or default) on strings: the empty string is falsy. -/
def strOr (s dflt : String) : String := if s = "" then dflt else s

/-!
## Time Range Resolver — src/lib/api/time.ts

parseTimeRange matches the token against the pattern digits followed by one
of h, d, m; createTimeRange derives the representations from the hours
value.  The canonical magnitude is kept here in integer minutes (the source
computes hours as a float; every branch condition of the source translates
exactly: hours >= 24 iff minutes >= 1440, hours % 24 == 0 iff
minutes % 1440 == 0, hours >= 1 iff minutes >= 60, and so on, since
hours * 60 = minutes exactly).  The absolute isoStart/isoEnd instants depend
on the wall clock and are not modelled; no claim mentions them.
-/

structure TimeRangeModel where
  raw : String
  hours : ℚ
  postgresInterval : String
  azureInterval : String
  isoDuration : String
  deriving DecidableEq

/-- Decimal digits of num/den (num < den), long division; fuel 17 mirrors the
precision of JavaScript float printing.  Exact whenever the expansion
terminates; the non-terminating case (minutes not divisible by 4) appears in
no theorem below. -/
def fracDigits : ℕ → ℕ → ℕ → List Char
  | _, _, 0 => []
  | n, d, fuel + 1 =>
    if n = 0 then []
    else Char.ofNat (48 + (n * 10) / d) :: fracDigits ((n * 10) % d) d fuel

/-- JavaScript rendering of the float minutes/60 (the hours value) inside a
template literal. -/
def showHoursNum (minutes : ℕ) : String :=
  if minutes % 60 = 0 then toString (minutes / 60)
  else toString (minutes / 60) ++ "." ++ ⟨fracDigits (minutes % 60) 60 17⟩

/-- Embedding of createTimeRange over the duration in minutes. -/
def createTimeRangeModel (m : ℕ) : TimeRangeModel :=
  { postgresInterval :=
      if 1440 ≤ m ∧ m % 1440 = 0 then toString (m / 1440) ++ " days"
      else if 60 ≤ m then showHoursNum m ++ " hours"
      else toString m ++ " minutes"
    azureInterval :=
      if m ≤ 60 then "PT5M"
      else if m ≤ 360 then "PT15M"
      else if m ≤ 1440 then "PT1H"
      else if m ≤ 4320 then "PT6H"
      else "P1D"
    isoDuration :=
      if 1440 ≤ m ∧ m % 1440 = 0 then "P" ++ toString (m / 1440) ++ "D"
      else "PT" ++ showHoursNum m ++ "H"
    raw :=
      if 1440 ≤ m ∧ m % 1440 = 0 then toString (m / 1440) ++ "d"
      else if 60 ≤ m then showHoursNum m ++ "h"
      else toString m ++ "m"
    hours := (m : ℚ) / 60 }

/-- The regular expression match of parseTimeRange: digits then one of h, d,
m, anchored on both sides; yields the magnitude and the unit. -/
def matchTimeToken (s : String) : Option (ℕ × Char) :=
  match s.data.getLast? with
  | none => none
  | some u =>
    let ds := s.data.dropLast
    if !ds.isEmpty && ds.all Char.isDigit && (u == 'h' || u == 'd' || u == 'm')
    then some (charsToNat ds, u) else none

/-- Duration in minutes for a matched magnitude and unit (source: d gives
value*24 hours, h gives value hours, m gives value/60 hours). -/
def minutesOf (v : ℕ) (u : Char) : ℕ :=
  if u = 'd' then 1440 * v else if u = 'h' then 60 * v else v

/-- Embedding of parseTimeRange: unmatched input falls back to 24 hours. -/
def parseTimeRangeModel (s : String) : TimeRangeModel :=
  match matchTimeToken s with
  | none => createTimeRangeModel 1440
  | some (v, u) => createTimeRangeModel (minutesOf v u)

/-!
## Cache layer — src/lib/api/cache.ts

getCacheKey builds the composite key; checkCache/setCache wrap an external
lru-cache store (a third-party package, not part of this repository).
Modelled from the spec: the store's TTL semantics follow the CacheEntry
invariant of the specification — an entry is valid-for-read iff
now - timestamp < ttl, a write overwrites the entry and resets its age, and
a stale entry is logically absent (lru-cache deletes it when read).  LRU
recency bookkeeping and capacity eviction are not modelled; no claim below
touches more distinct keys than the capacity.  Times are in milliseconds.
-/

/-- Embedding of getCacheKey from src/lib/api/cache.ts. -/
def getCacheKey (env range : String) : String := env ++ "-" ++ range

/-- Modelled from the spec: the TTL store behind checkCache/setCache (the
third-party lru-cache package, absent from src/) — entries are key, payload
and write timestamp; ttlMs is fixed per cache instance. -/
structure LruCacheModel (α : Type) where
  ttlMs : ℕ
  entries : List (String × α × ℕ)

/-- Embedding of setCache over the store model: overwrite any existing
entry for the key and reset its age to the current time. -/
def setCacheModel {α : Type} (c : LruCacheModel α) (key : String) (v : α)
    (now : ℕ) : LruCacheModel α :=
  { c with entries := (key, v, now) :: c.entries.filter (fun e => e.1 ≠ key) }

/-- Embedding of checkCache over the store model: with forceRefresh the
store is not consulted at all (the entry is left untouched); otherwise a
fresh entry (now - timestamp < ttl, the spec's validity invariant) is
returned and a stale one is dropped and reads as null.  Returns the read
result and the store state after the read. -/
def checkCacheModel {α : Type} (c : LruCacheModel α) (key : String)
    (forceRefresh : Bool) (now : ℕ) : Option α × LruCacheModel α :=
  if forceRefresh then (none, c)
  else
    match c.entries.find? (fun e => e.1 = key) with
    | none => (none, c)
    | some e =>
      if now - e.2.2 < c.ttlMs then (some e.2.1, c)
      else (none, { c with entries := c.entries.filter (fun x => x.1 ≠ key) })

/-!
## CLI deployments route cache — src/app/api/deployments/route.ts

The CLI-based deployments route keeps a single module-level entry
(deployCache) with a 2 minute TTL; the GET handler reads it before looking
at anything request-specific.  The env parameter of the handler is carried
here to show that the cache step does not depend on it.
-/

structure DeployCacheEntry (α : Type) where
  data : α
  timestamp : ℕ

/-- TTL of the CLI deployments route cache (2 minutes, in ms). -/
def DEPLOY_CACHE_TTL : ℕ := 2 * 60 * 1000

/-- The cache check at the top of the CLI deployments GET handler: return
the cached payload when present, fresh and not bypassed.  The requesting
environment plays no role. -/
def deploymentsCacheCheck {α : Type} (_env : String) (forceRefresh : Bool)
    (c : Option (DeployCacheEntry α)) (now : ℕ) : Option α :=
  match c with
  | some e =>
    if ¬forceRefresh ∧ now - e.timestamp < DEPLOY_CACHE_TTL then some e.data
    else none
  | none => none

/-- The cache write at the end of the CLI deployments GET handler: the
single module-level entry is replaced, whatever the requesting
environment. -/
def deploymentsCacheWrite {α : Type} (_env : String) (d : α) (now : ℕ) :
    Option (DeployCacheEntry α) :=
  some ⟨d, now⟩

/-!
## Identifier canonicalizer — src/lib/api/config.ts
-/

/-- First-match lookup in an association list (JavaScript object/Map key
lookup; keys are unique in the tables below). -/
def lookupA {β : Type} (s : String) : List (String × β) → Option β
  | [] => none
  | (t, v) :: rest => if t = s then some v else lookupA s rest

/-- Embedding of SERVICE_NAME_MAPPINGS. -/
def SERVICE_NAME_MAPPINGS : List (String × String) :=
  [("uvicorn", "Symmetry Backend"),
   ("symmetry-backend", "Symmetry Backend"),
   ("asp-sym-backend-prod", "Symmetry Backend"),
   ("asp-sym-backend-test", "Symmetry Backend"),
   ("app-sym-backend-prod", "Symmetry Backend"),
   ("app-sym-backend-test", "Symmetry Backend"),
   ("app-sym-backend", "Symmetry Backend"),
   ("ai-features-api", "AI Features API"),
   ("asp-ai-features-prod", "AI Features API"),
   ("asp-ai-features-test", "AI Features API"),
   ("app-sym-ai-features-prod", "AI Features API"),
   ("app-sym-ai-features-test", "AI Features API"),
   ("app-sym-ai-features", "AI Features API"),
   ("ai_features_api", "AI Features API"),
   ("aifeatures", "AI Features API"),
   ("ai-convo-processor", "Convo Processor"),
   ("func-sym-processor-prod", "Convo Processor"),
   ("func-sym-processor-test", "Convo Processor"),
   ("func-sym-processor", "Convo Processor"),
   ("ai_convo_processor", "Convo Processor"),
   ("__main__.py", "Convo Processor"),
   ("__main__", "Convo Processor"),
   ("function_app", "Convo Processor"),
   ("function_app.py", "Convo Processor")]

/-- Embedding of the ordered substring rules of mapServiceName (more
specific patterns listed before generic ones). -/
def serviceSubstringRules : List (String × String) :=
  [("ai-features", "AI Features API"),
   ("ai_features", "AI Features API"),
   ("aifeatures", "AI Features API"),
   ("processor", "Convo Processor"),
   ("func-sym", "Convo Processor"),
   ("__main__", "Convo Processor"),
   ("function_app", "Convo Processor"),
   ("backend", "Symmetry Backend"),
   ("uvicorn", "Symmetry Backend")]

/-- Embedding of mapServiceName: empty is Unknown; exact lower-cased match
first; then the first matching substring rule; otherwise the raw name is
returned unchanged. -/
def mapServiceName (rawName : String) : String :=
  if rawName = "" then "Unknown"
  else
    let lower := strTrim (strLower rawName)
    match lookupA lower SERVICE_NAME_MAPPINGS with
    | some n => n
    | none =>
      match serviceSubstringRules.find? (fun p => strIncludes lower p.1) with
      | some p => p.2
      | none => rawName

/-!
## aggregateServiceMetrics — src/lib/api/config.ts

The source folds the records into a JavaScript Map (insertion order, counts
added in place) and then sorts by descending count with the engine's stable
Array.prototype.sort.  A stable sort's output is uniquely determined by the
comparator and the input order, so the stable insertion sort below is
observationally identical to the engine's sort.
-/

/-- Adding a record into the insertion-ordered accumulator of the Map fold:
an existing key has the count added in place, a new key is appended. -/
def upsertCount : List (String × ℚ) → String → ℚ → List (String × ℚ)
  | [], s, c => [(s, c)]
  | (t, d) :: rest, s, c =>
    if t = s then (t, d + c) :: rest else (t, d) :: upsertCount rest s c

/-- The Map-building fold of aggregateServiceMetrics. -/
def groupFold (l : List (String × ℚ)) : List (String × ℚ) :=
  l.foldl (fun acc x => upsertCount acc x.1 x.2) []

/-- Stable descending insertion by count: a new element goes after every
element whose count is at least its own. -/
def insertByCountDesc (x : String × ℚ) : List (String × ℚ) → List (String × ℚ)
  | [] => [x]
  | y :: ys => if x.2 ≤ y.2 then y :: insertByCountDesc x ys else x :: y :: ys

/-- Stable sort by descending count (the b.count - a.count comparator). -/
def sortByCountDesc (l : List (String × ℚ)) : List (String × ℚ) :=
  l.foldl (fun acc x => insertByCountDesc x acc) []

/-- Embedding of aggregateServiceMetrics: group by name summing counts,
then sort by descending count. -/
def aggregateServiceMetrics (l : List (String × ℚ)) : List (String × ℚ) :=
  sortByCountDesc (groupFold l)

/-- Total count mass of a record list. -/
def countSum (l : List (String × ℚ)) : ℚ := (l.map Prod.snd).sum

/-- Count mass carried by one service name. -/
def sumKey (s : String) (l : List (String × ℚ)) : ℚ :=
  countSum (l.filter (fun r => r.1 = s))

/-!
## Metrics endpoint — src/app/api/metrics/route.ts

The GET handler issues nine backend calls in parallel.  Every one of them
is guarded at its own boundary: queryAppInsights catches any failure and
returns an empty row list, and getServiceBusMetrics/getAllServicesStatus
catch internally and return empty lists.  Each call's outcome is modelled
as Except String rows; the boundary catch turns an error into [].

Row cells are modelled at the type each query produces and the route
consumes: service rows as (name, count), performance rows as four cells,
and so on.  The JavaScript idiom (x or 0) on a numeric cell is the
identity on rationals (NaN does not arise in the model) and (x or '') is
the identity on strings; both are kept where the structure matters.
-/

/-- Boundary catch of a sub-query: a failure degrades to an empty row
list (queryAppInsights and the service-bus/app-service helpers all catch
and return []). -/
def catchRows {ρ : Type} (o : Except String (List ρ)) : List ρ :=
  match o with
  | .ok r => r
  | .error _ => []

/-- Outcomes of the nine parallel backend calls of the metrics GET
handler, in source order.  tracesByService is destructured under the name
requestsByService in the source. -/
structure MetricsOutcomes where
  requestsFromRequests : Except String (List (String × ℚ))
  tracesByService : Except String (List (String × ℚ))
  errorCount : Except String (List ℚ)
  llmMetrics : Except String (List (String × ℚ × ℚ × ℚ))
  serviceBusQueues : Except String (List (String × ℚ × ℚ))
  services : Except String (List (String × String × String))
  recentErrors : Except String (List (String × String × String × String))
  performanceData : Except String (List (String × ℚ × ℚ × ℚ))
  performanceAllRequests : Except String (List (String × ℚ × ℚ × ℚ))

/-- requestsDataRaw: keep rows with a truthy service cell, canonicalize the
name, take the count. -/
def requestsDataRaw (rows : List (String × ℚ)) : List (String × ℚ) :=
  (rows.filter (fun r => r.1 != "")).map (fun r => (mapServiceName r.1, r.2))

/-- traceServiceDataRaw: as requestsDataRaw but rows named Unknown are also
dropped. -/
def traceServiceDataRaw (rows : List (String × ℚ)) : List (String × ℚ) :=
  (rows.filter (fun r => r.1 != "" && r.1 != "Unknown")).map
    (fun r => (mapServiceName r.1, r.2))

/-- finalRequestsData: the aggregated primary result, or the aggregated
traces fallback when the primary aggregate is empty. -/
def finalRequestsDataOf (primary fallback : List (String × ℚ)) :
    List (String × ℚ) :=
  let requestsData := aggregateServiceMetrics (requestsDataRaw primary)
  let traceServiceData := aggregateServiceMetrics (traceServiceDataRaw fallback)
  if requestsData.length > 0 then requestsData else traceServiceData

/-- A parsed performance row (avg and p95 are Math.rounded). -/
structure PerfEntry where
  endpoint : String
  avgMs : ℤ
  p95Ms : ℤ
  count : ℚ
  deriving DecidableEq

/-- Parsing of one performance query's rows. -/
def perfParse (rows : List (String × ℚ × ℚ × ℚ)) : List PerfEntry :=
  rows.map (fun r =>
    ⟨strOr r.1 "", jsRound r.2.1, jsRound r.2.2.1, r.2.2.2⟩)

/-- perfData: endpoint-specific traces result, or the all-requests fallback
when the former parses to an empty list. -/
def perfDataOf (primary fallback : List (String × ℚ × ℚ × ℚ)) :
    List PerfEntry :=
  let perfFromTraces := perfParse primary
  let perfFromRequests := perfParse fallback
  if perfFromTraces.length > 0 then perfFromTraces else perfFromRequests

/-- A parsed LLM model row. -/
structure LlmEntry where
  model : String
  calls : ℚ
  tokens : ℚ
  cost : ℚ
  deriving DecidableEq

/-- A parsed queue row. -/
structure QueueEntry where
  name : String
  active : ℚ
  deadLetter : ℚ
  deriving DecidableEq

/-- A parsed recent-error row. -/
structure ErrEntry where
  timestamp : String
  message : String
  service : String
  path : String
  deriving DecidableEq

/-- The overview section, computed by folding over the already-parsed
sections. -/
structure MetricsOverview where
  totalRequests : ℚ
  totalErrors : ℚ
  llmCost24h : ℚ
  llmTokens24h : ℚ
  llmCalls24h : ℚ
  queueDepth : ℚ
  deadLetters : ℚ
  deriving DecidableEq

/-- The metrics endpoint payload (generation timestamp and echoed
environment omitted: wall clock and plain echo). -/
structure MetricsPayload where
  overview : MetricsOverview
  requestsByService : List (String × ℚ)
  llmByModel : List LlmEntry
  queues : List QueueEntry
  services : List (String × String)
  recentErrors : List ErrEntry
  performance : List PerfEntry
  deriving DecidableEq

/-- Embedding of the metrics GET assembly after the parallel fan-out: every
sub-query outcome passes through its boundary catch, then the parsed
sections and the folded overview are built exactly as in the source.  The
function is total: the batch never fails because a sub-query failed. -/
def metricsGET (o : MetricsOutcomes) : MetricsPayload :=
  let finalRequestsData :=
    finalRequestsDataOf (catchRows o.requestsFromRequests)
      (catchRows o.tracesByService)
  let errorsTotal : ℚ :=
    match catchRows o.errorCount with
    | [] => 0
    | q :: _ => q
  let llmData := (catchRows o.llmMetrics).map (fun r =>
    LlmEntry.mk (strOr r.1 "Unknown") r.2.1 r.2.2.1 r.2.2.2)
  let queuesData := (catchRows o.serviceBusQueues).map (fun q =>
    QueueEntry.mk q.1 q.2.1 q.2.2)
  let servicesData := (catchRows o.services).map (fun s =>
    (strOr s.2.1 s.1, s.2.2))
  let errorsData := (catchRows o.recentErrors).map (fun r =>
    ErrEntry.mk r.1 ((strOr r.2.1 "").take 100)
      (strOr (mapServiceName r.2.2.1) "Unknown") (strOr r.2.2.2 ""))
  let perfData :=
    perfDataOf (catchRows o.performanceData) (catchRows o.performanceAllRequests)
  { overview :=
      { totalRequests := finalRequestsData.foldl (fun sum r => sum + r.2) 0
        totalErrors := errorsTotal
        llmCost24h := llmData.foldl (fun sum m => sum + m.cost) 0
        llmTokens24h := llmData.foldl (fun sum m => sum + m.tokens) 0
        llmCalls24h := llmData.foldl (fun sum m => sum + m.calls) 0
        queueDepth := queuesData.foldl (fun sum q => sum + q.active) 0
        deadLetters := queuesData.foldl (fun sum q => sum + q.deadLetter) 0 }
    requestsByService := finalRequestsData
    llmByModel := llmData
    queues := queuesData
    services := servicesData
    recentErrors := errorsData
    performance := perfData }

/-!
## Database metrics endpoint — src/app/api/database/route.ts

Seventeen queryDatabase calls run under one Promise.all.  queryDatabase
itself logs and RE-THROWS on failure; at the call sites only the
slowQueries and queryStats calls append .catch(() => []).  A rejection of
any other call therefore rejects the whole Promise.all and the handler's
outer try/catch returns an error response.  Row fields arrive from pg as
strings; a missing field is modelled as "" (observationally equal under the
parseInt/parseFloat-or-0 and or-default idioms applied to every field).
When several uncaught sub-queries fail, Promise.all surfaces whichever
rejected first in time; the model surfaces the first in source order (every
theorem below involves at most one failing sub-query).
-/

structure CountsRow where
  total_users : String
  total_orgs : String
  total_workspaces : String
  total_kus : String
  total_conversations : String
  total_messages : String
  total_jobs : String
  deriving DecidableEq

structure JobStatusRow where
  status : String
  count : String
  deriving DecidableEq

structure UserTrendRow where
  date : String
  count : String
  deriving DecidableEq

structure HealthRow where
  db_size_mb : String
  active_queries : String
  total_connections : String
  idle_connections : String
  waiting_queries : String
  uptime_hours : String
  deriving DecidableEq

structure ConnectionRow where
  state : String
  count : String
  max_duration_sec : String
  deriving DecidableEq

structure CacheRow where
  cache_hit_ratio : String
  cache_hits : String
  disk_reads : String
  rows_returned : String
  rows_fetched : String
  rows_inserted : String
  rows_updated : String
  rows_deleted : String
  deriving DecidableEq

structure TableRow where
  table_name : String
  total_size : String
  size_mb : String
  row_count : String
  dead_tuples : String
  dead_tuple_ratio : String
  deriving DecidableEq

structure SlowQueryRow where
  query_snippet : String
  calls : String
  total_time_ms : String
  avg_time_ms : String
  max_time_ms : String
  rows : String
  deriving DecidableEq

structure QueryStatsRow where
  total_query_types : String
  total_calls : String
  total_exec_minutes : String
  avg_query_time_ms : String
  deriving DecidableEq

structure IndexRow where
  table_name : String
  index_name : String
  scans : String
  tuples_read : String
  tuples_fetched : String
  index_size : String
  deriving DecidableEq

structure LockRow where
  mode : String
  count : String
  deriving DecidableEq

structure CountRow where
  count : String
  deriving DecidableEq

/-- The row with every field missing (rows[0] or empty-object default). -/
def CountsRow.empty : CountsRow := ⟨"", "", "", "", "", "", ""⟩

def HealthRow.empty : HealthRow := ⟨"", "", "", "", "", ""⟩

def CacheRow.empty : CacheRow := ⟨"", "", "", "", "", "", "", ""⟩

def QueryStatsRow.empty : QueryStatsRow := ⟨"", "", "", ""⟩

/-- Outcomes of the seventeen parallel queryDatabase calls, in the order of
the Promise.all array of the source. -/
structure DbOutcomes where
  countStats : Except String (List CountsRow)
  jobStats : Except String (List JobStatusRow)
  recentUsers : Except String (List UserTrendRow)
  recentJobs : Except String (List JobStatusRow)
  dbHealth : Except String (List HealthRow)
  connectionStats : Except String (List ConnectionRow)
  cacheStats : Except String (List CacheRow)
  tableSizes : Except String (List TableRow)
  slowQueries : Except String (List SlowQueryRow)
  queryStats : Except String (List QueryStatsRow)
  indexUsage : Except String (List IndexRow)
  lockStats : Except String (List LockRow)
  newUsersResult : Except String (List CountRow)
  newJobsResult : Except String (List CountRow)
  newConversationsResult : Except String (List CountRow)
  newMessagesResult : Except String (List CountRow)
  newKUsResult : Except String (List CountRow)

/-- The settled row lists the parsing phase consumes. -/
structure DbRows where
  countStats : List CountsRow
  jobStats : List JobStatusRow
  recentUsers : List UserTrendRow
  recentJobs : List JobStatusRow
  dbHealth : List HealthRow
  connectionStats : List ConnectionRow
  cacheStats : List CacheRow
  tableSizes : List TableRow
  slowQueries : List SlowQueryRow
  queryStats : List QueryStatsRow
  indexUsage : List IndexRow
  lockStats : List LockRow
  newUsersResult : List CountRow
  newJobsResult : List CountRow
  newConversationsResult : List CountRow
  newMessagesResult : List CountRow
  newKUsResult : List CountRow

/-- The Promise.all of the database GET handler: only slowQueries and
queryStats carry a .catch(() => []); any other rejection rejects the
batch. -/
def dbSettle (o : DbOutcomes) : Except String DbRows := do
  let countStats ← o.countStats
  let jobStats ← o.jobStats
  let recentUsers ← o.recentUsers
  let recentJobs ← o.recentJobs
  let dbHealth ← o.dbHealth
  let connectionStats ← o.connectionStats
  let cacheStats ← o.cacheStats
  let tableSizes ← o.tableSizes
  let slowQueries := catchRows o.slowQueries
  let queryStats := catchRows o.queryStats
  let indexUsage ← o.indexUsage
  let lockStats ← o.lockStats
  let newUsersResult ← o.newUsersResult
  let newJobsResult ← o.newJobsResult
  let newConversationsResult ← o.newConversationsResult
  let newMessagesResult ← o.newMessagesResult
  let newKUsResult ← o.newKUsResult
  pure ⟨countStats, jobStats, recentUsers, recentJobs, dbHealth,
    connectionStats, cacheStats, tableSizes, slowQueries, queryStats,
    indexUsage, lockStats, newUsersResult, newJobsResult,
    newConversationsResult, newMessagesResult, newKUsResult⟩

/-- A JavaScript plain-object record built by forEach-assignment: insertion
ordered, assignment to an existing key overwrites in place. -/
def recordSet (l : List (String × ℤ)) (k : String) (v : ℤ) :
    List (String × ℤ) :=
  if l.any (fun e => e.1 == k) then
    l.map (fun e => if e.1 == k then (e.1, v) else e)
  else l ++ [(k, v)]

/-- Parsed entity counts. -/
structure ParsedCounts where
  users : ℤ
  organizations : ℤ
  workspaces : ℤ
  knowledgeUnits : ℤ
  conversations : ℤ
  messages : ℤ
  totalJobs : ℤ
  deriving DecidableEq

/-- Parsed activity counts. -/
structure ParsedActivity where
  newUsers : ℤ
  newJobs : ℤ
  newConversations : ℤ
  newMessages : ℤ
  newKUs : ℤ
  deriving DecidableEq

/-- Parsed connection-state row. -/
structure ConnEntry where
  state : String
  count : ℤ
  maxDurationSec : ℤ
  deriving DecidableEq

/-- Parsed table row. -/
structure TableEntry where
  name : String
  size : String
  sizeMb : ℤ
  rowCount : ℤ
  deadTuples : ℤ
  deadTupleRatio : ℚ
  deriving DecidableEq

/-- Parsed slow-query row. -/
structure SlowEntry where
  query : String
  calls : ℤ
  totalTimeMs : ℚ
  avgTimeMs : ℚ
  maxTimeMs : ℚ
  rows : ℤ
  deriving DecidableEq

/-- Parsed cumulative query statistics. -/
structure QueryStatsParsed where
  totalQueryTypes : ℤ
  totalCalls : ℤ
  totalExecMinutes : ℚ
  avgQueryTimeMs : ℚ
  deriving DecidableEq

/-- Parsed index-usage row. -/
structure IndexEntry where
  table : String
  index : String
  scans : ℤ
  tuplesRead : ℤ
  tuplesFetched : ℤ
  size : String
  deriving DecidableEq

/-- The jobs section. -/
structure DbJobs where
  total : ℤ
  completed : ℤ
  failed : ℤ
  processing : ℤ
  pending : ℤ
  byStatus : List (String × ℤ)
  deriving DecidableEq

/-- The jobsInRange section. -/
structure DbJobsInRange where
  byStatus : List (String × ℤ)
  total : ℤ
  deriving DecidableEq

/-- The health section. -/
structure DbHealthSection where
  score : ℤ
  status : String
  dbSizeMb : ℤ
  uptimeHours : ℤ
  activeQueries : ℤ
  totalConnections : ℤ
  idleConnections : ℤ
  waitingQueries : ℤ
  deriving DecidableEq

/-- The connections section. -/
structure DbConnections where
  total : ℤ
  byState : List ConnEntry
  deriving DecidableEq

/-- The cache section. -/
structure DbCacheSection where
  hitRatio : ℚ
  hits : ℤ
  diskReads : ℤ
  status : String
  deriving DecidableEq

/-- The operations section. -/
structure DbOperations where
  returned : ℤ
  fetched : ℤ
  inserted : ℤ
  updated : ℤ
  deleted : ℤ
  deriving DecidableEq

/-- The locks section. -/
structure DbLocks where
  total : ℤ
  byMode : List (String × ℤ)
  deriving DecidableEq

/-- The database endpoint payload (generation timestamp and echoed
environment/range omitted: wall clock and plain echo). -/
structure DbPayload where
  counts : ParsedCounts
  activity : ParsedActivity
  jobs : DbJobs
  jobsInRange : DbJobsInRange
  usersLast7Days : List (String × ℤ)
  health : DbHealthSection
  connections : DbConnections
  cache : DbCacheSection
  operations : DbOperations
  tables : List TableEntry
  queryStats : QueryStatsParsed
  slowQueries : List SlowEntry
  indexes : List IndexEntry
  locks : DbLocks
  deriving DecidableEq

/-- Embedding of the health score computation: four independently
thresholded sub-scores summed, Math.rounded and clamped to 100. -/
def healthScore (hitRatio : ℚ)
    (activeQueries waitingQueries totalConnections : ℤ) : ℤ :=
  min 100 (jsRound
    ((if 95 < hitRatio then (30 : ℚ) else if 90 < hitRatio then 20 else 10) +
     (if activeQueries < 10 then (30 : ℚ) else if activeQueries < 50 then 20 else 10) +
     (if waitingQueries < 5 then (20 : ℚ) else if waitingQueries < 20 then 10 else 0) +
     (if totalConnections < 50 then (20 : ℚ) else if totalConnections < 100 then 10 else 0)))

/-- Embedding of the status bucketing applied to the health score. -/
def healthStatusOf (score : ℤ) : String :=
  if 80 ≤ score then "healthy" else if 60 ≤ score then "warning" else "critical"

/-- Parsing of the first counts row (or the empty default). -/
def parseCountsSection (rows : List CountsRow) : ParsedCounts :=
  let counts := rows.headD CountsRow.empty
  { users := jsParseIntD counts.total_users
    organizations := jsParseIntD counts.total_orgs
    workspaces := jsParseIntD counts.total_workspaces
    knowledgeUnits := jsParseIntD counts.total_kus
    conversations := jsParseIntD counts.total_conversations
    messages := jsParseIntD counts.total_messages
    totalJobs := jsParseIntD counts.total_jobs }

/-- Status-keyed record built from job rows by forEach-assignment. -/
def parseStatusRecord (rows : List JobStatusRow) : List (String × ℤ) :=
  rows.foldl (fun acc row => recordSet acc row.status (jsParseIntD row.count)) []

/-- Parsing of the first health row (or the empty default). -/
def parseHealthNumbers (rows : List HealthRow) :
    ℤ × ℤ × ℤ × ℤ × ℤ × ℤ :=
  let row := rows.headD HealthRow.empty
  (jsParseIntD row.db_size_mb, jsParseIntD row.active_queries,
   jsParseIntD row.total_connections, jsParseIntD row.idle_connections,
   jsParseIntD row.waiting_queries, jsParseIntD row.uptime_hours)

/-- Parsing of the first pg cache-statistics row (or the empty default). -/
def parseCacheNumbers (rows : List CacheRow) :
    ℚ × ℤ × ℤ × ℤ × ℤ × ℤ × ℤ × ℤ :=
  let row := rows.headD CacheRow.empty
  (jsParseFloatD row.cache_hit_ratio, jsParseIntD row.cache_hits,
   jsParseIntD row.disk_reads, jsParseIntD row.rows_returned,
   jsParseIntD row.rows_fetched, jsParseIntD row.rows_inserted,
   jsParseIntD row.rows_updated, jsParseIntD row.rows_deleted)

/-- parseInt(rows[0]?.count) or 0 on an activity count result. -/
def headCount (rows : List CountRow) : ℤ :=
  match rows with
  | [] => 0
  | r :: _ => jsParseIntD r.count

/-- The parsing-and-assembly phase of the database GET handler, applied to
the settled rows of the seventeen queries. -/
def dbParse (r : DbRows) : DbPayload :=
  let parsedCounts := parseCountsSection r.countStats
  let jobStatsParsed := parseStatusRecord r.jobStats
  let recentJobsParsed := parseStatusRecord r.recentJobs
  let health := parseHealthNumbers r.dbHealth
  let cache := parseCacheNumbers r.cacheStats
  let queryStatsRow := r.queryStats.headD QueryStatsRow.empty
  let score := healthScore cache.1 health.2.1 health.2.2.2.2.1 health.2.2.1
  { counts := parsedCounts
    activity :=
      { newUsers := headCount r.newUsersResult
        newJobs := headCount r.newJobsResult
        newConversations := headCount r.newConversationsResult
        newMessages := headCount r.newMessagesResult
        newKUs := headCount r.newKUsResult }
    jobs :=
      { total := parsedCounts.totalJobs
        completed := (lookupA "completed" jobStatsParsed).getD 0
        failed := (lookupA "failed" jobStatsParsed).getD 0
        processing := (lookupA "processing" jobStatsParsed).getD 0
        pending := (lookupA "pending" jobStatsParsed).getD 0
        byStatus := jobStatsParsed }
    jobsInRange :=
      { byStatus := recentJobsParsed
        total := (recentJobsParsed.map Prod.snd).sum }
    usersLast7Days := r.recentUsers.map (fun row =>
      (row.date, jsParseIntD row.count))
    health :=
      { score := score
        status := healthStatusOf score
        dbSizeMb := health.1
        uptimeHours := health.2.2.2.2.2
        activeQueries := health.2.1
        totalConnections := health.2.2.1
        idleConnections := health.2.2.2.1
        waitingQueries := health.2.2.2.2.1 }
    connections :=
      { total := health.2.2.1
        byState := r.connectionStats.map (fun row =>
          ConnEntry.mk (strOr row.state "unknown") (jsParseIntD row.count)
            (jsParseIntD row.max_duration_sec)) }
    cache :=
      { hitRatio := cache.1
        hits := cache.2.1
        diskReads := cache.2.2.1
        status :=
          if 99 ≤ cache.1 then "excellent"
          else if 95 ≤ cache.1 then "good"
          else if 90 ≤ cache.1 then "fair"
          else "poor" }
    operations :=
      { returned := cache.2.2.2.1
        fetched := cache.2.2.2.2.1
        inserted := cache.2.2.2.2.2.1
        updated := cache.2.2.2.2.2.2.1
        deleted := cache.2.2.2.2.2.2.2 }
    tables := r.tableSizes.map (fun row =>
      TableEntry.mk row.table_name row.total_size (jsParseIntD row.size_mb)
        (jsParseIntD row.row_count) (jsParseIntD row.dead_tuples)
        (jsParseFloatD row.dead_tuple_ratio))
    queryStats :=
      { totalQueryTypes := jsParseIntD queryStatsRow.total_query_types
        totalCalls := jsParseIntD queryStatsRow.total_calls
        totalExecMinutes := jsParseFloatD queryStatsRow.total_exec_minutes
        avgQueryTimeMs := jsParseFloatD queryStatsRow.avg_query_time_ms }
    slowQueries := r.slowQueries.map (fun row =>
      SlowEntry.mk (strOr row.query_snippet "") (jsParseIntD row.calls)
        (jsParseFloatD row.total_time_ms) (jsParseFloatD row.avg_time_ms)
        (jsParseFloatD row.max_time_ms) (jsParseIntD row.rows))
    indexes := r.indexUsage.map (fun row =>
      IndexEntry.mk row.table_name row.index_name (jsParseIntD row.scans)
        (jsParseIntD row.tuples_read) (jsParseIntD row.tuples_fetched)
        row.index_size)
    locks :=
      let lockStatsParsed := r.lockStats.map (fun row =>
        (row.mode, jsParseIntD row.count))
      { total := (lockStatsParsed.map Prod.snd).sum
        byMode := lockStatsParsed } }

/-- The database GET handler after a cache miss: settle the parallel batch
(an uncaught sub-query failure becomes an error response through the outer
try/catch), then parse. -/
def dbGET (o : DbOutcomes) : Except String DbPayload :=
  (dbSettle o).map dbParse

/-!
## Helper lemmas about the aggregator
-/

/-- Descending-count order between records. -/
def countGE (a b : String × ℚ) : Prop := b.2 ≤ a.2

lemma upsertCount_notmem (acc : List (String × ℚ)) (s : String) (c : ℚ)
    (h : s ∉ acc.map Prod.fst) : upsertCount acc s c = acc ++ [(s, c)] := by
  induction acc with
  | nil => rfl
  | cons y rest ih =>
    obtain ⟨t, d⟩ := y
    simp only [List.map_cons, List.mem_cons] at h
    push_neg at h
    show (if t = s then _ else _) = _
    rw [if_neg fun he => h.1 he.symm]
    simp [ih h.2]

lemma upsertCount_ne_nil (acc : List (String × ℚ)) (s : String) (c : ℚ) :
    upsertCount acc s c ≠ [] := by
  cases acc with
  | nil => simp [upsertCount]
  | cons y rest =>
    obtain ⟨t, d⟩ := y
    by_cases h : t = s <;> simp [upsertCount, h]

lemma lookupA_upsertCount_self (acc : List (String × ℚ)) (s : String) (c : ℚ) :
    lookupA s (upsertCount acc s c) = some ((lookupA s acc).getD 0 + c) := by
  induction acc with
  | nil => simp [upsertCount, lookupA]
  | cons y rest ih =>
    obtain ⟨t, d⟩ := y
    by_cases h : t = s
    · simp [upsertCount, lookupA, h]
    · simp [upsertCount, lookupA, h, ih]

lemma lookupA_upsertCount_other (acc : List (String × ℚ)) (s s' : String)
    (c : ℚ) (h : s' ≠ s) :
    lookupA s' (upsertCount acc s c) = lookupA s' acc := by
  induction acc with
  | nil => simp [upsertCount, lookupA, Ne.symm h]
  | cons y rest ih =>
    obtain ⟨t, d⟩ := y
    show lookupA s' (if t = s then _ else _) = _
    by_cases ht : t = s
    · rw [if_pos ht]
      show (if t = s' then _ else _) = (if t = s' then _ else _)
      rw [if_neg fun he => h (he.symm.trans ht), if_neg fun he => h (he.symm.trans ht)]
    · rw [if_neg ht]
      show (if t = s' then _ else _) = (if t = s' then _ else _)
      by_cases ht' : t = s'
      · rw [if_pos ht', if_pos ht']
      · rw [if_neg ht', if_neg ht']
        exact ih

lemma upsertCount_keys_mem (acc : List (String × ℚ)) (s : String) (c : ℚ)
    (h : s ∈ acc.map Prod.fst) :
    (upsertCount acc s c).map Prod.fst = acc.map Prod.fst := by
  induction acc with
  | nil => simp at h
  | cons y rest ih =>
    obtain ⟨t, d⟩ := y
    by_cases ht : t = s
    · simp [upsertCount, ht]
    · simp only [List.map_cons, List.mem_cons] at h
      rcases h with h | h
    
      · exact absurd h.symm ht
      · simp [upsertCount, ht, ih h]

lemma upsertCount_nodupkeys (acc : List (String × ℚ)) (s : String) (c : ℚ)
    (h : (acc.map Prod.fst).Nodup) :
    ((upsertCount acc s c).map Prod.fst).Nodup := by
  by_cases hm : s ∈ acc.map Prod.fst
  · rw [upsertCount_keys_mem acc s c hm]; exact h
  · rw [upsertCount_notmem acc s c hm]
    simp only [List.map_append, List.map_cons, List.map_nil]
    refine List.Nodup.append h (List.nodup_singleton s) ?_
    intro a ha hs
    exact hm ((List.mem_singleton.mp hs) ▸ ha)

lemma upsertCount_countSum (acc : List (String × ℚ)) (s : String) (c : ℚ) :
    countSum (upsertCount acc s c) = countSum acc + c := by
  induction acc with
  | nil => simp [upsertCount, countSum]
  | cons y rest ih =>
    obtain ⟨t, d⟩ := y
    by_cases ht : t = s
    · simp [upsertCount, ht, countSum]
      ring
    · simp only [upsertCount, if_neg ht, countSum, List.map_cons,
        List.sum_cons] at *
      rw [ih]
      ring

lemma foldl_upsertCount_nodupkeys (l acc : List (String × ℚ))
    (h : (acc.map Prod.fst).Nodup) :
    ((l.foldl (fun acc x => upsertCount acc x.1 x.2) acc).map Prod.fst).Nodup := by
  induction l generalizing acc with
  | nil => exact h
  | cons x l ih =>
    exact ih (upsertCount acc x.1 x.2) (upsertCount_nodupkeys acc x.1 x.2 h)

lemma groupFold_nodupkeys (l : List (String × ℚ)) :
    ((groupFold l).map Prod.fst).Nodup :=
  foldl_upsertCount_nodupkeys l [] (by simp)

lemma foldl_upsertCount_ne_nil (l acc : List (String × ℚ)) (h : acc ≠ []) :
    l.foldl (fun acc x => upsertCount acc x.1 x.2) acc ≠ [] := by
  induction l generalizing acc with
  | nil => exact h
  | cons x l ih =>
    exact ih (upsertCount acc x.1 x.2) (upsertCount_ne_nil acc x.1 x.2)

lemma groupFold_eq_nil_iff (l : List (String × ℚ)) :
    groupFold l = [] ↔ l = [] := by
  constructor
  · intro h
    cases l with
    | nil => rfl
    | cons x l =>
      exact absurd h
        (foldl_upsertCount_ne_nil l (upsertCount [] x.1 x.2)
          (upsertCount_ne_nil [] x.1 x.2))
  · intro h
    subst h
    rfl

lemma foldl_upsertCount_countSum (l acc : List (String × ℚ)) :
    countSum (l.foldl (fun acc x => upsertCount acc x.1 x.2) acc) =
      countSum acc + countSum l := by
  induction l generalizing acc with
  | nil => simp [countSum]
  | cons x l ih =>
    rw [List.foldl_cons, ih, upsertCount_countSum]
    simp only [countSum, List.map_cons, List.sum_cons]
    ring

lemma groupFold_countSum (l : List (String × ℚ)) :
    countSum (groupFold l) = countSum l := by
  have := foldl_upsertCount_countSum l []
  simpa [groupFold, countSum] using this

lemma sumKey_cons (s : String) (x : String × ℚ) (l : List (String × ℚ)) :
    sumKey s (x :: l) =
      if x.1 = s then x.2 + sumKey s l else sumKey s l := by
  by_cases h : x.1 = s <;> simp [sumKey, countSum, List.filter_cons, h]

lemma foldl_upsertCount_lookup (s : String) (l acc : List (String × ℚ)) :
    lookupA s (l.foldl (fun acc x => upsertCount acc x.1 x.2) acc) =
      match lookupA s acc with
      | some v => some (v + sumKey s l)
      | none => if s ∈ l.map Prod.fst then some (sumKey s l) else none := by
  induction l generalizing acc with
  | nil =>
    cases h : lookupA s acc <;> simp [h, sumKey, countSum]
  | cons x l ih =>
    simp only [List.foldl_cons]
    rw [ih (upsertCount acc x.1 x.2)]
    by_cases hx : x.1 = s
    · subst hx
      rw [lookupA_upsertCount_self acc x.1 x.2]
      cases h : lookupA x.1 acc with
      | none =>
        simp [h, sumKey_cons, add_assoc]
      | some v =>
        simp [h, sumKey_cons, add_assoc]
    · rw [lookupA_upsertCount_other acc x.1 s x.2 fun he => hx he.symm]
      cases h : lookupA s acc with
      | none =>
        have hne : ¬s = x.1 := fun he => hx he.symm
        have hmem : (s ∈ x.1 :: List.map Prod.fst l) ↔
            (s ∈ List.map Prod.fst l) := by simp [hne]
        simp only [h, sumKey_cons, if_neg hx, List.map_cons]
        rw [if_congr hmem rfl rfl]
      | some v =>
        simp [h, sumKey_cons, hx]

lemma groupFold_lookup (s : String) (l : List (String × ℚ)) :
    lookupA s (groupFold l) =
      if s ∈ l.map Prod.fst then some (sumKey s l) else none := by
  have := foldl_upsertCount_lookup s l []
  simpa [groupFold, lookupA] using this

lemma foldl_upsertCount_grouped (l acc : List (String × ℚ))
    (hdisj : ∀ x ∈ l, x.1 ∉ acc.map Prod.fst)
    (hnod : (l.map Prod.fst).Nodup) :
    l.foldl (fun acc x => upsertCount acc x.1 x.2) acc = acc ++ l := by
  induction l generalizing acc with
  | nil => simp
  | cons x l ih =>
    simp only [List.foldl_cons]
    rw [upsertCount_notmem acc x.1 x.2 (hdisj x (List.mem_cons_self x l))]
    rw [ih (acc ++ [x])]
    · simp
    · intro y hy
      simp only [List.map_append, List.mem_append, List.map_cons, List.map_nil,
        List.mem_singleton]
      push_neg
      refine ⟨hdisj y (List.mem_cons_of_mem x hy), ?_⟩
      simp only [List.map_cons, List.nodup_cons] at hnod
      intro he
      exact hnod.1 (he ▸ List.mem_map_of_mem Prod.fst hy)
    · exact (List.nodup_cons.mp (by simpa using hnod)).2

lemma groupFold_grouped (l : List (String × ℚ))
    (hnod : (l.map Prod.fst).Nodup) : groupFold l = l := by
  have := foldl_upsertCount_grouped l [] (by simp) hnod
  simpa [groupFold] using this

lemma insertByCountDesc_perm (x : String × ℚ) (l : List (String × ℚ)) :
    (insertByCountDesc x l).Perm (x :: l) := by
  induction l with
  | nil => exact List.Perm.refl _
  | cons y ys ih =>
    simp only [insertByCountDesc]
    by_cases h : x.2 ≤ y.2
    · rw [if_pos h]
      exact (ih.cons y).trans (List.Perm.swap x y ys)
    · rw [if_neg h]

lemma sortByCountDesc_perm_aux (l acc : List (String × ℚ)) :
    (l.foldl (fun acc x => insertByCountDesc x acc) acc).Perm (acc ++ l) := by
  induction l generalizing acc with
  | nil => simp
  | cons x l ih =>
    simp only [List.foldl_cons]
    refine (ih (insertByCountDesc x acc)).trans ?_
    refine (List.Perm.append_right l (insertByCountDesc_perm x acc)).trans ?_
    exact (List.perm_middle).symm

lemma sortByCountDesc_perm (l : List (String × ℚ)) :
    (sortByCountDesc l).Perm l := by
  simpa using sortByCountDesc_perm_aux l []

lemma insertByCountDesc_pairwise (x : String × ℚ) (l : List (String × ℚ))
    (h : l.Pairwise countGE) : (insertByCountDesc x l).Pairwise countGE := by
  induction l with
  | nil => simp [insertByCountDesc, countGE]
  | cons y ys ih =>
    rw [List.pairwise_cons] at h
    simp only [insertByCountDesc]
    by_cases hc : x.2 ≤ y.2
    · rw [if_pos hc]
      rw [List.pairwise_cons]
      constructor
      · intro z hz
        rcases List.mem_cons.mp ((insertByCountDesc_perm x ys).mem_iff.mp hz)
          with hz2 | hz2
        · subst hz2
          exact hc
        · exact h.1 z hz2
      · exact ih h.2
    · rw [if_neg hc]
      rw [List.pairwise_cons]
      constructor
      · intro z hz
        rcases List.mem_cons.mp hz with hz | hz
        · subst hz
          exact le_of_lt (lt_of_not_le hc)
        · exact le_trans (h.1 z hz) (le_of_lt (lt_of_not_le hc))
      · exact List.pairwise_cons.mpr h

lemma sortByCountDesc_pairwise_aux (l acc : List (String × ℚ))
    (h : acc.Pairwise countGE) :
    (l.foldl (fun acc x => insertByCountDesc x acc) acc).Pairwise countGE := by
  induction l generalizing acc with
  | nil => exact h
  | cons x l ih =>
    exact ih (insertByCountDesc x acc) (insertByCountDesc_pairwise x acc h)

lemma sortByCountDesc_pairwise (l : List (String × ℚ)) :
    (sortByCountDesc l).Pairwise countGE :=
  sortByCountDesc_pairwise_aux l [] (List.Pairwise.nil)

lemma insertByCountDesc_append (x : String × ℚ) (l : List (String × ℚ))
    (h : ∀ y ∈ l, x.2 ≤ y.2) : insertByCountDesc x l = l ++ [x] := by
  induction l with
  | nil => rfl
  | cons y ys ih =>
    show (if x.2 ≤ y.2 then _ else _) = _
    rw [if_pos (h y (List.mem_cons_self y ys))]
    rw [ih fun z hz => h z (List.mem_cons_of_mem y hz)]
    simp

lemma sortByCountDesc_sorted_id_aux (l acc : List (String × ℚ))
    (h : (acc ++ l).Pairwise countGE) :
    l.foldl (fun acc x => insertByCountDesc x acc) acc = acc ++ l := by
  induction l generalizing acc with
  | nil => simp
  | cons x l ih =>
    simp only [List.foldl_cons]
    have hx : ∀ y ∈ acc, x.2 ≤ y.2 := by
      intro y hy
      have := (List.pairwise_append.mp h).2.2 y hy x (List.mem_cons_self x l)
      exact this
    rw [insertByCountDesc_append x acc hx]
    rw [ih (acc ++ [x]) (by simpa using h)]
    simp

lemma sortByCountDesc_sorted_id (l : List (String × ℚ))
    (h : l.Pairwise countGE) : sortByCountDesc l = l := by
  simpa using sortByCountDesc_sorted_id_aux l [] (by simpa using h)

lemma lookupA_eq_none_iff (s : String) (l : List (String × ℚ)) :
    lookupA s l = none ↔ s ∉ l.map Prod.fst := by
  induction l with
  | nil => simp [lookupA]
  | cons y rest ih =>
    obtain ⟨t, d⟩ := y
    by_cases h : t = s
    · subst h
      simp [lookupA]
    · simp only [lookupA, if_neg h, List.map_cons, List.mem_cons]
      rw [ih]
      constructor
      · intro hn
        push_neg
        exact ⟨fun he => h he.symm, hn⟩
      · intro hn
        push_neg at hn
        exact hn.2

lemma lookupA_eq_some_iff (s : String) (v : ℚ) (l : List (String × ℚ))
    (nd : (l.map Prod.fst).Nodup) :
    lookupA s l = some v ↔ (s, v) ∈ l := by
  induction l with
  | nil => simp [lookupA]
  | cons y rest ih =>
    obtain ⟨t, d⟩ := y
    simp only [List.map_cons, List.nodup_cons] at nd
    by_cases h : t = s
    · subst h
      simp only [lookupA, if_pos rfl, List.mem_cons]
      constructor
      · intro he
        exact Or.inl (by simpa using he.symm)
      · intro he
        rcases he with he | he
        · simp [Prod.ext_iff] at he
          simp [he]
        · exact absurd (List.mem_map_of_mem Prod.fst he) nd.1
    · simp only [lookupA, if_neg h, List.mem_cons]
      rw [ih nd.2]
      constructor
      · intro hm
        exact Or.inr hm
      · intro hm
        rcases hm with hm | hm
        · exact absurd (congrArg Prod.fst hm).symm h
        · exact hm

lemma lookupA_perm (l l' : List (String × ℚ)) (p : l.Perm l')
    (nd : (l.map Prod.fst).Nodup) (s : String) :
    lookupA s l = lookupA s l' := by
  have nd' : (l'.map Prod.fst).Nodup := ((p.map Prod.fst).nodup_iff).mp nd
  cases h : lookupA s l with
  | none =>
    rw [lookupA_eq_none_iff] at h
    have : s ∉ l'.map Prod.fst := fun hm =>
      h (((p.map Prod.fst).mem_iff).mpr hm)
    exact ((lookupA_eq_none_iff s l').mpr this).symm
  | some v =>
    rw [lookupA_eq_some_iff s v l nd] at h
    exact ((lookupA_eq_some_iff s v l' nd').mpr (p.mem_iff.mp h)).symm

lemma aggregate_nodupkeys (l : List (String × ℚ)) :
    ((aggregateServiceMetrics l).map Prod.fst).Nodup := by
  have p := (sortByCountDesc_perm (groupFold l)).map Prod.fst
  exact (p.nodup_iff).mpr (groupFold_nodupkeys l)

lemma aggregate_lookup (l : List (String × ℚ)) (s : String) :
    lookupA s (aggregateServiceMetrics l) =
      if s ∈ l.map Prod.fst then some (sumKey s l) else none := by
  rw [show aggregateServiceMetrics l = sortByCountDesc (groupFold l) from rfl]
  rw [← lookupA_perm (groupFold l) (sortByCountDesc (groupFold l))
    (sortByCountDesc_perm (groupFold l)).symm (groupFold_nodupkeys l) s]
  exact groupFold_lookup s l

lemma aggregate_countSum (l : List (String × ℚ)) :
    countSum (aggregateServiceMetrics l) = countSum l := by
  have p := (sortByCountDesc_perm (groupFold l)).map Prod.snd
  unfold aggregateServiceMetrics
  calc (List.map Prod.snd (sortByCountDesc (groupFold l))).sum
      = (List.map Prod.snd (groupFold l)).sum := p.sum_eq
    _ = countSum l := groupFold_countSum l

lemma aggregate_eq_nil_iff (l : List (String × ℚ)) :
    aggregateServiceMetrics l = [] ↔ l = [] := by
  constructor
  · intro h
    have hlen := (sortByCountDesc_perm (groupFold l)).length_eq
    rw [show sortByCountDesc (groupFold l) = aggregateServiceMetrics l from rfl,
      h] at hlen
    exact (groupFold_eq_nil_iff l).mp (List.length_eq_zero.mp hlen.symm)
  · intro h
    subst h
    rfl

lemma aggregate_idem (l : List (String × ℚ)) :
    aggregateServiceMetrics (aggregateServiceMetrics l) =
      aggregateServiceMetrics l := by
  have h1 : groupFold (aggregateServiceMetrics l) = aggregateServiceMetrics l :=
    groupFold_grouped _ (aggregate_nodupkeys l)
  show sortByCountDesc (groupFold (aggregateServiceMetrics l)) = _
  rw [h1]
  exact sortByCountDesc_sorted_id _ (sortByCountDesc_pairwise _)

lemma aggregate_lookup_perm (l l' : List (String × ℚ)) (p : l.Perm l')
    (s : String) :
    lookupA s (aggregateServiceMetrics l) =
      lookupA s (aggregateServiceMetrics l') := by
  rw [aggregate_lookup, aggregate_lookup]
  have hsum : sumKey s l = sumKey s l' := by
    unfold sumKey countSum
    exact ((p.filter (fun r => r.1 = s)).map Prod.snd).sum_eq
  exact if_congr ((p.map Prod.fst).mem_iff) (by rw [hsum]) rfl

/-!
## Claim theorems
-/

/-- C6 counterexample: the token "0h" has zero magnitude, yet it matches the
digits-plus-unit pattern of parseTimeRange, so the function returns a
zero-hour range instead of the claimed 24-hour default. -/
theorem C6_zero_token_counterexample :
    (parseTimeRangeModel "0h").hours = 0 ∧
      (parseTimeRangeModel "0h").hours ≠ 24 := by
  constructor
  · show ((minutesOf 0 'h' : ℕ) : ℚ) / 60 = 0
    norm_num [minutesOf]
  · show ((minutesOf 0 'h' : ℕ) : ℚ) / 60 ≠ 24
    norm_num [minutesOf]

/-- C6 (amended): every input string that does not match an integer
magnitude followed by unit m, h or d — malformed tokens and tokens with a
negative magnitude included — makes parseTimeRange return the fixed default
24-hour range rather than failing; a zero-magnitude token such as "0h",
however, does match the pattern and yields a zero-length range (hours = 0),
not the default. -/
theorem C6_parse_default_amended :
    (∀ s : String, matchTimeToken s = none →
      parseTimeRangeModel s = createTimeRangeModel 1440 ∧
        (parseTimeRangeModel s).hours = 24) ∧
    (parseTimeRangeModel "0h").hours = 0 := by
  refine ⟨fun s h => ⟨?_, ?_⟩, ?_⟩
  · simp [parseTimeRangeModel, h]
  · simp only [parseTimeRangeModel, h, createTimeRangeModel]
    norm_num
  · show ((minutesOf 0 'h' : ℕ) : ℚ) / 60 = 0
    norm_num [minutesOf]

/-- C6 witness: the token "-5h" (negative magnitude) does not match the
pattern and parses to the 24-hour default. -/
theorem C6_parse_default_witness :
    matchTimeToken "-5h" = none ∧ (parseTimeRangeModel "-5h").hours = 24 :=
  ⟨by decide, (C6_parse_default_amended.1 "-5h" (by decide)).2⟩

/-- C7 counterexample: the token "7d" resolves to 168 hours, which exceeds
the 72-hour bound of the 6-hour bucket, so the derived metrics granularity
is the 1-day bucket "P1D", not the claimed 6-hour bucket "PT6H". -/
theorem C7_seven_day_counterexample :
    (parseTimeRangeModel "7d").azureInterval = "P1D" ∧
      (parseTimeRangeModel "7d").azureInterval ≠ "PT6H" := by
  constructor
  · decide
  · decide

/-- C7 (amended): parseTimeRange applied to "7d" yields hours = 168,
log-engine duration "7d", SQL interval "7 days", ISO duration "P7D", and a
metrics-API granularity equal to the 1-day bucket "P1D" (168 hours is
beyond the 72-hour bound for the 6-hour bucket). -/
theorem C7_seven_day_range_amended :
    (parseTimeRangeModel "7d").hours = 168 ∧
    (parseTimeRangeModel "7d").raw = "7d" ∧
    (parseTimeRangeModel "7d").postgresInterval = "7 days" ∧
    (parseTimeRangeModel "7d").isoDuration = "P7D" ∧
    (parseTimeRangeModel "7d").azureInterval = "P1D" := by
  refine ⟨?_, by decide, by decide, by decide, by decide⟩
  show ((minutesOf 7 'd' : ℕ) : ℚ) / 60 = 168
  norm_num [minutesOf]

/-- C8 counterexample: parseTimeRange("24h") re-renders its raw field in
canonical day form, returning "1d" rather than echoing the original token
"24h" as claimed. -/
theorem C8_raw_echo_counterexample :
    (parseTimeRangeModel "24h").raw = "1d" ∧
      (parseTimeRangeModel "24h").raw ≠ "24h" := by
  constructor
  · decide
  · decide

/-- C8 (amended): for every well-formed token, the raw field is the
canonical re-rendering of the parsed duration (integral multiples of a day
as "Nd", at least one hour as the rendered hours followed by "h", otherwise
minutes followed by "m"), not an echo of the input; it coincides with the
input token exactly when the token is already canonical — so "7d", "25h"
and "30m" round-trip while "24h" renders as "1d". -/
theorem C8_raw_canonical_amended :
    (∀ (s : String) (v : ℕ) (u : Char), matchTimeToken s = some (v, u) →
      (parseTimeRangeModel s).raw = (createTimeRangeModel (minutesOf v u)).raw) ∧
    (parseTimeRangeModel "7d").raw = "7d" ∧
    (parseTimeRangeModel "25h").raw = "25h" ∧
    (parseTimeRangeModel "30m").raw = "30m" ∧
    (parseTimeRangeModel "24h").raw = "1d" := by
  refine ⟨fun s v u h => ?_, by decide, by decide, by decide, by decide⟩
  simp [parseTimeRangeModel, h]

/-- C8 witness: the amended statement applied at the concrete token "24h",
whose match is (24, h). -/
theorem C8_raw_canonical_witness :
    matchTimeToken "24h" = some (24, 'h') ∧
      (parseTimeRangeModel "24h").raw =
        (createTimeRangeModel (minutesOf 24 'h')).raw :=
  ⟨by decide, C8_raw_canonical_amended.1 "24h" 24 'h' (by decide)⟩

/-- Status bucketing facts shared by the health-score theorems. -/
lemma healthStatusOf_cases (s : ℤ) :
    (healthStatusOf s = "healthy" ↔ 80 ≤ s) ∧
    (healthStatusOf s = "warning" ↔ 60 ≤ s ∧ s < 80) ∧
    (healthStatusOf s = "critical" ↔ s < 60) := by
  unfold healthStatusOf
  split_ifs with h1 h2
  · refine ⟨⟨fun _ => h1, fun _ => rfl⟩, ?_, ?_⟩
    · constructor
      · intro he
        exact absurd he (by decide)
      · intro ⟨_, hlt⟩
        exact absurd h1 (not_le.mpr hlt)
    · constructor
      · intro he
        exact absurd he (by decide)
      · intro hlt
        omega
  · refine ⟨?_, ⟨fun _ => ⟨h2, not_le.mp h1⟩, fun _ => rfl⟩, ?_⟩
    · constructor
      · intro he
        exact absurd he (by decide)
      · intro hle
        exact absurd hle h1
    · constructor
      · intro he
        exact absurd he (by decide)
      · intro hlt
        omega
  · refine ⟨?_, ?_, ⟨fun _ => not_le.mp h2, fun _ => rfl⟩⟩
    · constructor
      · intro he
        exact absurd he (by decide)
      · intro hle
        exact absurd hle h1
    · constructor
      · intro he
        exact absurd he (by decide)
      · intro ⟨hge, _⟩
        exact absurd hge h2

/-- C4: the database health score is the sum of the four independently
thresholded sub-scores clamped to 100; the status buckets are healthy iff
the score is at least 80, warning iff it is in [60, 80), critical below 60;
indicators at the best-case thresholds give exactly 100 and healthy, and
indicators all at worst case give a score below 60 and critical. -/
theorem C4_health_score_and_status :
    ∀ (hitRatio : ℚ) (activeQueries waitingQueries totalConnections : ℤ),
      healthScore hitRatio activeQueries waitingQueries totalConnections =
        min 100
          ((if 95 < hitRatio then (30 : ℤ) else if 90 < hitRatio then 20 else 10) +
           (if activeQueries < 10 then 30 else if activeQueries < 50 then 20 else 10) +
           (if waitingQueries < 5 then 20 else if waitingQueries < 20 then 10 else 0) +
           (if totalConnections < 50 then 20 else if totalConnections < 100 then 10 else 0)) ∧
      (healthStatusOf (healthScore hitRatio activeQueries waitingQueries totalConnections) = "healthy" ↔
        80 ≤ healthScore hitRatio activeQueries waitingQueries totalConnections) ∧
      (healthStatusOf (healthScore hitRatio activeQueries waitingQueries totalConnections) = "warning" ↔
        60 ≤ healthScore hitRatio activeQueries waitingQueries totalConnections ∧
          healthScore hitRatio activeQueries waitingQueries totalConnections < 80) ∧
      (healthStatusOf (healthScore hitRatio activeQueries waitingQueries totalConnections) = "critical" ↔
        healthScore hitRatio activeQueries waitingQueries totalConnections < 60) ∧
      (95 < hitRatio → activeQueries < 10 → waitingQueries < 5 →
        totalConnections < 50 →
        healthScore hitRatio activeQueries waitingQueries totalConnections = 100 ∧
          healthStatusOf (healthScore hitRatio activeQueries waitingQueries totalConnections) = "healthy") ∧
      (hitRatio ≤ 90 → 50 ≤ activeQueries → 20 ≤ waitingQueries →
        100 ≤ totalConnections →
        healthScore hitRatio activeQueries waitingQueries totalConnections < 60 ∧
          healthStatusOf (healthScore hitRatio activeQueries waitingQueries totalConnections) = "critical") := by
  intro hr aq wq tc
  have hA : (if 95 < hr then (30 : ℚ) else if 90 < hr then 20 else 10) =
      (((if 95 < hr then (30 : ℤ) else if 90 < hr then 20 else 10) : ℤ) : ℚ) := by
    split_ifs <;> norm_num
  have hB : (if aq < 10 then (30 : ℚ) else if aq < 50 then 20 else 10) =
      (((if aq < 10 then (30 : ℤ) else if aq < 50 then 20 else 10) : ℤ) : ℚ) := by
    split_ifs <;> norm_num
  have hC : (if wq < 5 then (20 : ℚ) else if wq < 20 then 10 else 0) =
      (((if wq < 5 then (20 : ℤ) else if wq < 20 then 10 else 0) : ℤ) : ℚ) := by
    split_ifs <;> norm_num
  have hD : (if tc < 50 then (20 : ℚ) else if tc < 100 then 10 else 0) =
      (((if tc < 50 then (20 : ℤ) else if tc < 100 then 10 else 0) : ℤ) : ℚ) := by
    split_ifs <;> norm_num
  have hscore : healthScore hr aq wq tc =
      min 100
        ((if 95 < hr then (30 : ℤ) else if 90 < hr then 20 else 10) +
         (if aq < 10 then 30 else if aq < 50 then 20 else 10) +
         (if wq < 5 then 20 else if wq < 20 then 10 else 0) +
         (if tc < 50 then 20 else if tc < 100 then 10 else 0)) := by
    unfold healthScore jsRound
    rw [hA, hB, hC, hD, ← Int.cast_add, ← Int.cast_add, ← Int.cast_add,
      round_intCast]
  refine ⟨hscore, (healthStatusOf_cases _).1, (healthStatusOf_cases _).2.1,
    (healthStatusOf_cases _).2.2, ?_, ?_⟩
  · intro h1 h2 h3 h4
    have h100 : healthScore hr aq wq tc = 100 := by
      rw [hscore, if_pos h1, if_pos h2, if_pos h3, if_pos h4]
      decide
    refine ⟨h100, ?_⟩
    rw [h100]
    exact (healthStatusOf_cases 100).1.mpr (by norm_num)
  · intro h1 h2 h3 h4
    have h20 : healthScore hr aq wq tc = 20 := by
      rw [hscore, if_neg (by linarith), if_neg (by linarith),
        if_neg (by omega), if_neg (by omega), if_neg (by omega),
        if_neg (by omega), if_neg (by omega), if_neg (by omega)]
      decide
    constructor
    · rw [h20]
      norm_num
    · rw [h20]
      exact (healthStatusOf_cases 20).2.2.mpr (by norm_num)

/-- C4 witness: the best-case thresholds (hit ratio 96, 5 active queries, 3
waiting, 40 connections) give exactly 100 and healthy; the worst case (hit
ratio 80, 60 active, 25 waiting, 150 connections) gives a score below 60
and critical. -/
theorem C4_health_score_witness :
    (healthScore 96 5 3 40 = 100 ∧
      healthStatusOf (healthScore 96 5 3 40) = "healthy") ∧
    (healthScore 80 60 25 150 < 60 ∧
      healthStatusOf (healthScore 80 60 25 150) = "critical") :=
  ⟨(C4_health_score_and_status 96 5 3 40).2.2.2.2.1 (by norm_num)
      (by norm_num) (by norm_num) (by norm_num),
    (C4_health_score_and_status 80 60 25 150).2.2.2.2.2 (by norm_num)
      (by norm_num) (by norm_num) (by norm_num)⟩

/-- C5: for every cache, key and payload, a read immediately after a write
returns the payload while the TTL has not elapsed and null once it has;
a bypass read returns null even right after the write, and it leaves the
entry untouched, so a subsequent plain read within the TTL still returns
the payload. -/
theorem C5_cache_roundtrip_bypass :
    ∀ (α : Type) (c : LruCacheModel α) (k : String) (v : α) (t0 t1 t2 : ℕ),
      t0 ≤ t1 → t1 - t0 < c.ttlMs →
      ((checkCacheModel (setCacheModel c k v t0) k false t1).1 = some v) ∧
      (c.ttlMs ≤ t2 - t0 →
        (checkCacheModel (setCacheModel c k v t0) k false t2).1 = none) ∧
      (checkCacheModel (setCacheModel c k v t0) k true t1 =
        (none, setCacheModel c k v t0)) ∧
      ((checkCacheModel
          (checkCacheModel (setCacheModel c k v t0) k true t1).2
          k false t1).1 = some v) := by
  intro α c k v t0 t1 t2 _ hfresh
  have hfind : List.find? (fun e => decide (e.1 = k))
      ((k, v, t0) :: c.entries.filter (fun e => decide (e.1 ≠ k))) =
      some (k, v, t0) := by
    simp [List.find?]
  have h1 : (checkCacheModel (setCacheModel c k v t0) k false t1).1 = some v := by
    simp [checkCacheModel, setCacheModel, hfind]
    rw [if_pos hfresh]
  refine ⟨h1, ?_, ?_, ?_⟩
  · intro hstale
    simp [checkCacheModel, setCacheModel, hfind]
    rw [if_neg (not_lt.mpr hstale)]
  · simp [checkCacheModel]
  · have hbp : (checkCacheModel (setCacheModel c k v t0) k true t1).2 =
        setCacheModel c k v t0 := by
      simp [checkCacheModel]
    rw [hbp]
    exact h1

/-- C5 witness: a one-minute cache, key "prod-24h", payload 42 written at
time 0: a plain read at 30s returns 42, a plain read at 70s returns null,
and a bypass read at 30s returns null while a plain read after it still
returns 42. -/
theorem C5_cache_roundtrip_witness :
    ((checkCacheModel (setCacheModel (LruCacheModel.mk 60000 []) "prod-24h"
        (42 : ℕ) 0) "prod-24h" false 30000).1 = some 42) ∧
    ((checkCacheModel (setCacheModel (LruCacheModel.mk 60000 []) "prod-24h"
        (42 : ℕ) 0) "prod-24h" false 70000).1 = none) ∧
    ((checkCacheModel
        (checkCacheModel (setCacheModel (LruCacheModel.mk 60000 []) "prod-24h"
          (42 : ℕ) 0) "prod-24h" true 30000).2 "prod-24h" false 30000).1 =
      some 42) := by
  have h := C5_cache_roundtrip_bypass ℕ (LruCacheModel.mk 60000 [])
    "prod-24h" 42 0 30000 70000 (by norm_num) (by norm_num)
  exact ⟨h.1, h.2.1 (by norm_num), h.2.2.2⟩

/-- C3 counterexample: the deployments endpoint's module-level deployCache
is a single unkeyed entry; a request for environment test, arriving one
second after a request for environment prod populated the cache, reads the
prod payload from it — two requests differing in environment read and
write the same cache entry. -/
theorem C3_deployments_cache_counterexample :
    deploymentsCacheCheck "test" false
        (deploymentsCacheWrite "prod" "prod payload" 0) 1000 =
      some "prod payload" ∧
    deploymentsCacheCheck "test" false
        (deploymentsCacheWrite "prod" "prod payload" 0) 1000 =
      deploymentsCacheCheck "prod" false
        (deploymentsCacheWrite "prod" "prod payload" 0) 1000 := by
  constructor
  · rfl
  · rfl

/-- C3 (amended): for the endpoints that use getCacheKey (metrics,
database, llm, errors, and the SDK deployments route), the key is the
composite of environment and range scoped to a per-endpoint cache
instance: over the environments prod and test, two requests resolve to the
same key iff environment and range both coincide.  The CLI deployments
route's deployCache, however, is a single module-level entry with no key:
its cache check is independent of the requesting environment, so requests
that differ in environment share the entry. -/
theorem C3_cache_key_amended :
    (∀ (e1 r1 e2 r2 : String),
        (e1 = "prod" ∨ e1 = "test") → (e2 = "prod" ∨ e2 = "test") →
        (getCacheKey e1 r1 = getCacheKey e2 r2 ↔ e1 = e2 ∧ r1 = r2)) ∧
    (∀ (α : Type) (env1 env2 : String) (f : Bool)
        (c : Option (DeployCacheEntry α)) (n : ℕ),
        deploymentsCacheCheck env1 f c n = deploymentsCacheCheck env2 f c n) := by
  constructor
  · intro e1 r1 e2 r2 he1 he2
    constructor
    · intro h
      unfold getCacheKey at h
      rcases he1 with rfl | rfl <;> rcases he2 with rfl | rfl
      · have hd := congrArg String.data h
        simp only [String.data_append] at hd
        exact ⟨rfl, String.ext (List.append_cancel_left hd)⟩
      · have hd := congrArg String.data h
        simp only [String.data_append] at hd
        simp [show "prod".data = ['p', 'r', 'o', 'd'] from rfl,
          show "test".data = ['t', 'e', 's', 't'] from rfl,
          show "-".data = ['-'] from rfl] at hd
      · have hd := congrArg String.data h
        simp only [String.data_append] at hd
        simp [show "prod".data = ['p', 'r', 'o', 'd'] from rfl,
          show "test".data = ['t', 'e', 's', 't'] from rfl,
          show "-".data = ['-'] from rfl] at hd
      · have hd := congrArg String.data h
        simp only [String.data_append] at hd
        exact ⟨rfl, String.ext (List.append_cancel_left hd)⟩
    · intro ⟨he, hr⟩
      rw [he, hr]
  · intro α env1 env2 f c n
    rfl

/-- C3 witness: the key iff at concrete inputs — identical environment and
range give the same key, and the two environments (or two ranges) give
different keys. -/
theorem C3_cache_key_witness :
    getCacheKey "prod" "24h" = getCacheKey "prod" "24h" ∧
    getCacheKey "prod" "24h" ≠ getCacheKey "test" "24h" ∧
    getCacheKey "prod" "24h" ≠ getCacheKey "prod" "7d" := by
  refine ⟨rfl, ?_, ?_⟩
  · intro h
    have := (C3_cache_key_amended.1 "prod" "24h" "test" "24h"
      (Or.inl rfl) (Or.inr rfl)).mp h
    exact absurd this.1 (by decide)
  · intro h
    have := (C3_cache_key_amended.1 "prod" "24h" "prod" "7d"
      (Or.inl rfl) (Or.inl rfl)).mp h
    exact absurd this.2 (by decide)

/-- Folding addition of the count field equals the count mass. -/
lemma foldl_add_snd (l : List (String × ℚ)) (a : ℚ) :
    l.foldl (fun sum r => sum + r.2) a = a + countSum l := by
  induction l generalizing a with
  | nil => simp [countSum]
  | cons x l ih =>
    simp only [List.foldl_cons, ih, countSum, List.map_cons, List.sum_cons]
    ring

/-- C9: aggregateServiceMetrics groups records by service name and sums
their counts (the count found under a name is exactly the total mass of
that name in the input), returns the groups sorted by descending count, is
idempotent, and gives each group a summed count independent of the input
order; canonicalizing the raw names uvicorn, symmetry-backend and
ai-features-api with counts 5, 3, 2 and aggregating yields
Symmetry Backend 8 followed by AI Features API 2. -/
theorem C9_aggregate_properties :
    (∀ (xs : List (String × ℚ)) (s : String),
        lookupA s (aggregateServiceMetrics xs) =
          if s ∈ xs.map Prod.fst then some (sumKey s xs) else none) ∧
    (∀ xs : List (String × ℚ),
        (aggregateServiceMetrics xs).Pairwise countGE) ∧
    (∀ xs : List (String × ℚ),
        aggregateServiceMetrics (aggregateServiceMetrics xs) =
          aggregateServiceMetrics xs) ∧
    (∀ (xs ys : List (String × ℚ)), xs.Perm ys → ∀ s : String,
        lookupA s (aggregateServiceMetrics xs) =
          lookupA s (aggregateServiceMetrics ys)) ∧
    (aggregateServiceMetrics ([("uvicorn", 5), ("symmetry-backend", 3),
        ("ai-features-api", 2)].map (fun r => (mapServiceName r.1, r.2))) =
      [("Symmetry Backend", 8), ("AI Features API", 2)]) := by
  refine ⟨aggregate_lookup, fun xs => sortByCountDesc_pairwise _,
    aggregate_idem, aggregate_lookup_perm, ?_⟩
  have hm1 : mapServiceName "uvicorn" = "Symmetry Backend" := by decide
  have hm2 : mapServiceName "symmetry-backend" = "Symmetry Backend" := by decide
  have hm3 : mapServiceName "ai-features-api" = "AI Features API" := by decide
  simp only [List.map_cons, List.map_nil, hm1, hm2, hm3]
  norm_num [aggregateServiceMetrics, groupFold, sortByCountDesc, upsertCount,
    insertByCountDesc]
  rw [if_neg (by decide)]
  norm_num [insertByCountDesc]

/-- C9 witness: the order-independence part applied to a concrete
transposition — swapping two records does not change the count looked up
for either name. -/
theorem C9_aggregate_witness :
    lookupA "alpha"
        (aggregateServiceMetrics [("beta", 2), ("alpha", 1)]) =
      lookupA "alpha"
        (aggregateServiceMetrics [("alpha", 1), ("beta", 2)]) :=
  C9_aggregate_properties.2.2.2.1 [("beta", 2), ("alpha", 1)]
    [("alpha", 1), ("beta", 2)] (List.Perm.swap ("alpha", 1) ("beta", 2) [])
    "alpha"

/-- C10: aggregation preserves total count mass, and the metrics overview's
totalRequests — computed by folding over the aggregated records — equals
the total of the raw per-service counts parsed from the winning query
(the primary requests query, or the traces fallback when the primary
parses to an empty list). -/
theorem C10_total_requests_mass :
    (∀ xs : List (String × ℚ),
        countSum (aggregateServiceMetrics xs) = countSum xs) ∧
    (∀ o : MetricsOutcomes,
        (metricsGET o).overview.totalRequests =
          countSum (if requestsDataRaw (catchRows o.requestsFromRequests) = []
            then traceServiceDataRaw (catchRows o.tracesByService)
            else requestsDataRaw (catchRows o.requestsFromRequests))) := by
  refine ⟨aggregate_countSum, ?_⟩
  intro o
  show (finalRequestsDataOf (catchRows o.requestsFromRequests)
      (catchRows o.tracesByService)).foldl (fun sum r => sum + r.2) 0 = _
  rw [foldl_add_snd]
  rw [zero_add]
  unfold finalRequestsDataOf
  by_cases h : requestsDataRaw (catchRows o.requestsFromRequests) = []
  · rw [if_neg, if_pos h]
    · exact aggregate_countSum _
    · rw [h]
      show ¬(aggregateServiceMetrics []).length > 0
      rw [show aggregateServiceMetrics [] = [] from rfl]
      simp
  · rw [if_pos, if_neg h]
    · exact aggregate_countSum _
    · have := (not_iff_not.mpr (aggregate_eq_nil_iff
        (requestsDataRaw (catchRows o.requestsFromRequests)))).mpr h
      simpa [List.length_pos] using this

/-- C2: for both primary/fallback pairs of the metrics endpoint the merged
output uses the fallback's parsed result iff the primary's parsed result
list is empty — for requests-by-service with traces-by-service as fallback
(tested on the aggregated primary, whose emptiness coincides with the
parsed list's), and for performance-by-endpoint with
performance-from-requests as fallback; a non-empty primary whose counts
are all zero is still used and does not trigger the fallback. -/
theorem C2_primary_fallback_policy :
    (∀ (primary fallback : List (String × ℚ)),
        (requestsDataRaw primary = [] →
          finalRequestsDataOf primary fallback =
            aggregateServiceMetrics (traceServiceDataRaw fallback)) ∧
        (requestsDataRaw primary ≠ [] →
          finalRequestsDataOf primary fallback =
            aggregateServiceMetrics (requestsDataRaw primary))) ∧
    (∀ (primary fallback : List (String × ℚ × ℚ × ℚ)),
        (perfParse primary = [] →
          perfDataOf primary fallback = perfParse fallback) ∧
        (perfParse primary ≠ [] →
          perfDataOf primary fallback = perfParse primary)) ∧
    (∀ (primary fallback : List (String × ℚ)),
        primary ≠ [] → (∀ r ∈ primary, r.1 ≠ "" ∧ r.2 = 0) →
        finalRequestsDataOf primary fallback =
          aggregateServiceMetrics (requestsDataRaw primary)) := by
  have hfinal : ∀ (primary fallback : List (String × ℚ)),
      (requestsDataRaw primary = [] →
        finalRequestsDataOf primary fallback =
          aggregateServiceMetrics (traceServiceDataRaw fallback)) ∧
      (requestsDataRaw primary ≠ [] →
        finalRequestsDataOf primary fallback =
          aggregateServiceMetrics (requestsDataRaw primary)) := by
    intro primary fallback
    constructor
    · intro h
      unfold finalRequestsDataOf
      rw [if_neg]
      rw [h]
      show ¬(aggregateServiceMetrics []).length > 0
      rw [show aggregateServiceMetrics [] = [] from rfl]
      simp
    · intro h
      unfold finalRequestsDataOf
      rw [if_pos]
      have := (not_iff_not.mpr (aggregate_eq_nil_iff
        (requestsDataRaw primary))).mpr h
      simpa [List.length_pos] using this
  refine ⟨hfinal, ?_, ?_⟩
  · intro primary fallback
    constructor
    · intro h
      unfold perfDataOf
      rw [h]
      simp
    · intro h
      unfold perfDataOf
      rw [if_pos]
      simpa [List.length_pos] using h
  · intro primary fallback hne hall
    refine (hfinal primary fallback).2 ?_
    unfold requestsDataRaw
    rw [List.filter_eq_self.mpr fun r hr => by
      simpa using (hall r hr).1]
    simpa using hne

/-- C2 witness: a primary whose only row has a falsy service cell parses to
the empty list, so the fallback's aggregate is used; a non-empty primary
with a single zero-count row is still used and the fallback is ignored. -/
theorem C2_primary_fallback_witness :
    (requestsDataRaw [("", 5)] = [] ∧
      finalRequestsDataOf [("", 5)] [("uvicorn", 3)] =
        aggregateServiceMetrics (traceServiceDataRaw [("uvicorn", 3)])) ∧
    finalRequestsDataOf [("svc", 0)] [("uvicorn", 3)] =
      aggregateServiceMetrics (requestsDataRaw [("svc", 0)]) := by
  refine ⟨⟨by decide, ?_⟩, ?_⟩
  · exact (C2_primary_fallback_policy.1 [("", 5)] [("uvicorn", 3)]).1 (by decide)
  · exact C2_primary_fallback_policy.2.2 [("svc", 0)] [("uvicorn", 3)]
      (by decide) (by decide)

/-- The outcome record in which every one of the seventeen database
sub-queries succeeded with the corresponding settled rows. -/
def okOutcomes (r : DbRows) : DbOutcomes :=
  { countStats := Except.ok r.countStats
    jobStats := Except.ok r.jobStats
    recentUsers := Except.ok r.recentUsers
    recentJobs := Except.ok r.recentJobs
    dbHealth := Except.ok r.dbHealth
    connectionStats := Except.ok r.connectionStats
    cacheStats := Except.ok r.cacheStats
    tableSizes := Except.ok r.tableSizes
    slowQueries := Except.ok r.slowQueries
    queryStats := Except.ok r.queryStats
    indexUsage := Except.ok r.indexUsage
    lockStats := Except.ok r.lockStats
    newUsersResult := Except.ok r.newUsersResult
    newJobsResult := Except.ok r.newJobsResult
    newConversationsResult := Except.ok r.newConversationsResult
    newMessagesResult := Except.ok r.newMessagesResult
    newKUsResult := Except.ok r.newKUsResult }

/-- Success of the fifteen database sub-queries that carry no
.catch(() => []) — slowQueries and queryStats excluded. -/
def dbUncaughtOk (o : DbOutcomes) : Prop :=
  (∃ v, o.countStats = Except.ok v) ∧
  (∃ v, o.jobStats = Except.ok v) ∧
  (∃ v, o.recentUsers = Except.ok v) ∧
  (∃ v, o.recentJobs = Except.ok v) ∧
  (∃ v, o.dbHealth = Except.ok v) ∧
  (∃ v, o.connectionStats = Except.ok v) ∧
  (∃ v, o.cacheStats = Except.ok v) ∧
  (∃ v, o.tableSizes = Except.ok v) ∧
  (∃ v, o.indexUsage = Except.ok v) ∧
  (∃ v, o.lockStats = Except.ok v) ∧
  (∃ v, o.newUsersResult = Except.ok v) ∧
  (∃ v, o.newJobsResult = Except.ok v) ∧
  (∃ v, o.newConversationsResult = Except.ok v) ∧
  (∃ v, o.newMessagesResult = Except.ok v) ∧
  (∃ v, o.newKUsResult = Except.ok v)

/-- Settled rows in which every sub-query returned no rows. -/
def emptyDbRows : DbRows :=
  { countStats := []
    jobStats := []
    recentUsers := []
    recentJobs := []
    dbHealth := []
    connectionStats := []
    cacheStats := []
    tableSizes := []
    slowQueries := []
    queryStats := []
    indexUsage := []
    lockStats := []
    newUsersResult := []
    newJobsResult := []
    newConversationsResult := []
    newMessagesResult := []
    newKUsResult := [] }

/-- A database batch in which only the first sub-query (entityCounts)
failed and every other sub-query returned successfully. -/
def dbOutcomesOneFailure : DbOutcomes :=
  { okOutcomes emptyDbRows with
    countStats := Except.error "connection refused" }

/-- C1 counterexample: in the database-metrics endpoint, a failure of the
entityCounts sub-query alone — all sixteen siblings succeeding — makes the
whole batch fail: the endpoint returns an error response, not a payload
with an empty counts section. -/
theorem C1_db_batch_counterexample :
    dbGET dbOutcomesOneFailure = Except.error "connection refused" ∧
      ∀ p : DbPayload, dbGET dbOutcomesOneFailure ≠ Except.ok p := by
  constructor
  · rfl
  · intro p h
    rw [show dbGET dbOutcomesOneFailure =
      Except.error "connection refused" from rfl] at h
    exact Except.noConfusion h

/-- C1 (amended): failure isolation is per-boundary, not universal.  In the
metrics endpoint every one of the nine parallel sub-queries is guarded — a
failing outcome is indistinguishable from a successful empty result, the
batch always produces a payload, and the failed sub-query's section is
empty while sibling sections are untouched.  In the database-metrics
endpoint only the slowQueries and queryStats sub-queries (2 of the 17)
carry a .catch(() => []): their failure degrades those two sections to
empty defaults with every other section still populated from its own rows,
but the endpoint returns a payload iff all fifteen uncaught sub-queries
succeed — a failure of any one of them fails the batch wholesale. -/
theorem C1_failure_isolation_amended :
    (∀ (o : DbOutcomes) (es eq : String),
        dbGET { o with
            slowQueries := Except.error es,
            queryStats := Except.error eq } =
          dbGET { o with
            slowQueries := Except.ok [],
            queryStats := Except.ok [] }) ∧
    (∀ o : DbOutcomes, (∃ p, dbGET o = Except.ok p) ↔ dbUncaughtOk o) ∧
    (∀ (r : DbRows) (es eq : String),
        dbGET { okOutcomes r with
            slowQueries := Except.error es,
            queryStats := Except.error eq } =
          Except.ok (dbParse { r with
            slowQueries := [], queryStats := [] }) ∧
        (dbParse { r with
            slowQueries := ([] : List SlowQueryRow),
            queryStats := ([] : List QueryStatsRow) }).slowQueries = [] ∧
        (dbParse { r with
            slowQueries := ([] : List SlowQueryRow),
            queryStats := ([] : List QueryStatsRow) }).queryStats =
          ⟨0, 0, 0, 0⟩ ∧
        (dbParse { r with
            slowQueries := ([] : List SlowQueryRow),
            queryStats := ([] : List QueryStatsRow) }).counts =
          parseCountsSection r.countStats ∧
        (dbParse { r with
            slowQueries := ([] : List SlowQueryRow),
            queryStats := ([] : List QueryStatsRow) }).locks =
          (dbParse r).locks) ∧
    (∀ (o : MetricsOutcomes) (e : String),
        metricsGET { o with requestsFromRequests := Except.error e } =
          metricsGET { o with requestsFromRequests := Except.ok [] } ∧
        metricsGET { o with tracesByService := Except.error e } =
          metricsGET { o with tracesByService := Except.ok [] } ∧
        metricsGET { o with errorCount := Except.error e } =
          metricsGET { o with errorCount := Except.ok [] } ∧
        metricsGET { o with llmMetrics := Except.error e } =
          metricsGET { o with llmMetrics := Except.ok [] } ∧
        metricsGET { o with serviceBusQueues := Except.error e } =
          metricsGET { o with serviceBusQueues := Except.ok [] } ∧
        metricsGET { o with services := Except.error e } =
          metricsGET { o with services := Except.ok [] } ∧
        metricsGET { o with recentErrors := Except.error e } =
          metricsGET { o with recentErrors := Except.ok [] } ∧
        metricsGET { o with performanceData := Except.error e } =
          metricsGET { o with performanceData := Except.ok [] } ∧
        metricsGET { o with performanceAllRequests := Except.error e } =
          metricsGET { o with performanceAllRequests := Except.ok [] }) ∧
    (∀ (o : MetricsOutcomes) (e : String),
        (metricsGET { o with llmMetrics := Except.error e }).llmByModel = [] ∧
        (metricsGET { o with llmMetrics := Except.error e }).queues =
          (metricsGET o).queues) := by
  refine ⟨?_, ?_, ?_, ?_, ?_⟩
  · intro o es eq
    simp [dbGET, dbSettle, catchRows]
  · intro o
    constructor
    · rintro ⟨p, hp⟩
      unfold dbGET at hp
      cases hs : dbSettle o with
      | error e =>
        rw [hs] at hp
        exact absurd hp (by simp [Except.map])
      | ok r =>
        unfold dbSettle at hs
        cases h1 : o.countStats <;> rw [h1] at hs
        case error => simp [Bind.bind, Except.bind] at hs
        case ok v1 =>
        cases h2 : o.jobStats <;> rw [h2] at hs
        case error => simp [Bind.bind, Except.bind] at hs
        case ok v2 =>
        cases h3 : o.recentUsers <;> rw [h3] at hs
        case error => simp [Bind.bind, Except.bind] at hs
        case ok v3 =>
        cases h4 : o.recentJobs <;> rw [h4] at hs
        case error => simp [Bind.bind, Except.bind] at hs
        case ok v4 =>
        cases h5 : o.dbHealth <;> rw [h5] at hs
        case error => simp [Bind.bind, Except.bind] at hs
        case ok v5 =>
        cases h6 : o.connectionStats <;> rw [h6] at hs
        case error => simp [Bind.bind, Except.bind] at hs
        case ok v6 =>
        cases h7 : o.cacheStats <;> rw [h7] at hs
        case error => simp [Bind.bind, Except.bind] at hs
        case ok v7 =>
        cases h8 : o.tableSizes <;> rw [h8] at hs
        case error => simp [Bind.bind, Except.bind] at hs
        case ok v8 =>
        cases h9 : o.indexUsage <;> rw [h9] at hs
        case error => simp [Bind.bind, Except.bind] at hs
        case ok v9 =>
        cases h10 : o.lockStats <;> rw [h10] at hs
        case error => simp [Bind.bind, Except.bind] at hs
        case ok v10 =>
        cases h11 : o.newUsersResult <;> rw [h11] at hs
        case error => simp [Bind.bind, Except.bind] at hs
        case ok v11 =>
        cases h12 : o.newJobsResult <;> rw [h12] at hs
        case error => simp [Bind.bind, Except.bind] at hs
        case ok v12 =>
        cases h13 : o.newConversationsResult <;> rw [h13] at hs
        case error => simp [Bind.bind, Except.bind] at hs
        case ok v13 =>
        cases h14 : o.newMessagesResult <;> rw [h14] at hs
        case error => simp [Bind.bind, Except.bind] at hs
        case ok v14 =>
        cases h15 : o.newKUsResult <;> rw [h15] at hs
        case error => simp [Bind.bind, Except.bind] at hs
        case ok v15 =>
        exact ⟨⟨v1, h1⟩, ⟨v2, h2⟩, ⟨v3, h3⟩, ⟨v4, h4⟩, ⟨v5, h5⟩, ⟨v6, h6⟩,
          ⟨v7, h7⟩, ⟨v8, h8⟩, ⟨v9, h9⟩, ⟨v10, h10⟩, ⟨v11, h11⟩, ⟨v12, h12⟩,
          ⟨v13, h13⟩, ⟨v14, h14⟩, ⟨v15, h15⟩⟩
    · rintro ⟨⟨v1, h1⟩, ⟨v2, h2⟩, ⟨v3, h3⟩, ⟨v4, h4⟩, ⟨v5, h5⟩, ⟨v6, h6⟩,
        ⟨v7, h7⟩, ⟨v8, h8⟩, ⟨v9, h9⟩, ⟨v10, h10⟩, ⟨v11, h11⟩, ⟨v12, h12⟩,
        ⟨v13, h13⟩, ⟨v14, h14⟩, ⟨v15, h15⟩⟩
      refine ⟨dbParse ⟨v1, v2, v3, v4, v5, v6, v7, v8,
        catchRows o.slowQueries, catchRows o.queryStats, v9, v10, v11, v12,
        v13, v14, v15⟩, ?_⟩
      unfold dbGET dbSettle
      rw [h1, h2, h3, h4, h5, h6, h7, h8, h9, h10, h11, h12, h13, h14, h15]
      rfl
  · intro r es eq
    exact ⟨rfl, rfl, rfl, rfl, rfl⟩
  · intro o e
    refine ⟨?_, ?_, ?_, ?_, ?_, ?_, ?_, ?_, ?_⟩ <;>
      simp [metricsGET, catchRows]
  · intro o e
    exact ⟨rfl, rfl⟩

/-- C1 witness: the success characterization applied to the concrete
all-successful empty batch — the database endpoint then returns the parsed
payload. -/
theorem C1_failure_isolation_witness :
    ∃ p, dbGET (okOutcomes emptyDbRows) = Except.ok p :=
  (C1_failure_isolation_amended.2.1 (okOutcomes emptyDbRows)).mpr
    ⟨⟨_, rfl⟩, ⟨_, rfl⟩, ⟨_, rfl⟩, ⟨_, rfl⟩, ⟨_, rfl⟩, ⟨_, rfl⟩, ⟨_, rfl⟩,
      ⟨_, rfl⟩, ⟨_, rfl⟩, ⟨_, rfl⟩, ⟨_, rfl⟩, ⟨_, rfl⟩, ⟨_, rfl⟩, ⟨_, rfl⟩,
      ⟨_, rfl⟩⟩
